import Mathlib

/-!
Verification development for `mc_ssh` (`src/mc_ssh/mccli.py`), an ssh client
wrapper for OIDC-based authentication.  The CLI subcommands `ssh`, `scp` and
`sftp` are embedded shallowly: the helper functions imported from
`mc_ssh.utils` and `mc_ssh.ssh_service` (whose sources are not in the
repository snapshot) are treated as abstract operations, and each subcommand
is a function from those operations and its parsed arguments to a trace of
observable events (network resolutions, transport invocations, printed lines)
together with an outcome (normal return, or an uncaught exception).
-/

namespace McSsh

/-- A parsed `[user@]host:path` or local-path argument, as produced by
`validate_scp_source` / `validate_scp_target`: a dictionary with optional
keys `host` and `path` (`mccli.py` reads them with `.get("host", None)` and
`.get("path", ".")`). -/
structure PathSpec where
  host : Option String
  path : Option String
deriving Repr, DecidableEq

/-- Python exceptions relevant to `mccli.py`: the three `OSError` subclasses
with dedicated handlers in the `scp` subcommand (lines 147-152), and a
generic `Exception` carrying its message (lines 123, 126, 153). -/
inductive PyError where
  | permissionError (filename : String)
  | isADirectoryError (filename : String)
  | fileNotFoundError (filename : String)
  | exception (msg : String)
deriving Repr, DecidableEq

/-- `str(e)` as used by `print(e)` in the generic handlers.  For a generic
`Exception` this is its message; the exact rendering of the `OSError`
subclasses is irrelevant to the claims and is modelled as the filename. -/
def pyStr : PyError → String
  | .permissionError f => f
  | .isADirectoryError f => f
  | .fileNotFoundError f => f
  | .exception m => m

/-- Observable events of one subcommand invocation: the three network-touching
resolution steps, the four transport operations, and printed lines. -/
inductive Ev where
  | initEndpoint (hostname : String)
  | initToken (endpoint : String)
  | initUser (endpoint : String)
  | sshInteractive (hostname username tok : String) (port : Int)
  | sshExec (hostname username tok : String) (port : Int) (command : String)
  | scpPut (hostname username tok : String) (port : Int)
      (src_path dest_path : String) (recursive preserve_times : Bool)
  | scpGet (hostname username tok : String) (port : Int)
      (src_path dest_path : String) (recursive preserve_times : Bool)
  | printed (line : String)
deriving Repr, DecidableEq

/-- Events that resolve endpoint, token or username against the remote API. -/
def Ev.isNetwork : Ev → Bool
  | .initEndpoint _ => true
  | .initToken _ => true
  | .initUser _ => true
  | _ => false

/-- Events that invoke the scp transport (`scp_put` / `scp_get`). -/
def Ev.isTransport : Ev → Bool
  | .scpPut _ _ _ _ _ _ _ _ => true
  | .scpGet _ _ _ _ _ _ _ _ => true
  | _ => false

/-- Modelled from the spec: the helpers imported by `mccli.py` from
`mc_ssh.utils` and `mc_ssh.ssh_service` (`init_endpoint`, `init_token`,
`init_user`, `str_init_token`, `ssh_interactive`, `ssh_exec`, `scp_put`,
`scp_get`) are not under `src/`; they are modelled as abstract operations
that either return a value or raise an exception (spec §4.1-§4.4, §7). -/
structure Oracle where
  init_endpoint : Option String → String → Bool → Except PyError String
  init_token : Option String → Option String → Option String → String → Bool →
      Except PyError String
  init_user : String → String → Bool → Except PyError String
  str_init_token : Option String → Option String → Option String →
      Except PyError String
  ssh_interactive : String → String → String → Int → Except PyError Unit
  ssh_exec : String → String → String → Int → String → Except PyError Unit
  scp_put : String → String → String → Int → String → String → Bool → Bool →
      Except PyError Unit
  scp_get : String → String → String → Int → String → String → Bool → Bool →
      Except PyError Unit

/-- Modelled from the spec: `SSH_PORT`, imported from `mc_ssh.ssh_service`
(not under `src/`); the spec fixes the default port to 22 (§8: "port ==
default (22)"). -/
def SSH_PORT : Int := 22

/-- Parsed arguments of the `ssh` subcommand (`mccli.py` lines 48-57). -/
structure SshArgs where
  mc_endpoint : Option String
  verify : Bool
  token : Option String
  oa_account : Option String
  iss : Option String
  dry_run : Bool
  p : Int
  hostname : String
  command : Option String

/-- Parsed arguments of the `scp` subcommand (`mccli.py` lines 80-94). -/
structure ScpArgs where
  mc_endpoint : Option String
  verify : Bool
  token : Option String
  oa_account : Option String
  iss : Option String
  dry_run : Bool
  port : Int
  recursive : Bool
  preserve_times : Bool

/-- The resolution sequence `init_endpoint`; `init_token`; `init_user`
(`mccli.py` lines 59-61, 110-112 and 118-120), emitting one network event per
call made and propagating the first error.  Returns
`(endpoint, access token, username)`. -/
def resolveSession (o : Oracle) (mc_endpoint : Option String) (host : String)
    (verify : Bool) (token oa_account iss : Option String) :
    List Ev × Except PyError (String × String × String) :=
  match o.init_endpoint mc_endpoint host verify with
  | .error e => ([.initEndpoint host], .error e)
  | .ok endpoint =>
    match o.init_token token oa_account iss endpoint verify with
    | .error e => ([.initEndpoint host, .initToken endpoint], .error e)
    | .ok tok =>
      match o.init_user endpoint tok verify with
      | .error e =>
        ([.initEndpoint host, .initToken endpoint, .initUser endpoint], .error e)
      | .ok username =>
        ([.initEndpoint host, .initToken endpoint, .initUser endpoint],
          .ok (endpoint, tok, username))

/-- The Python locals `at`, `username` and `sshpass_cmd` of the `scp`
subcommand; `at` and `username` start out unassigned (`none`). -/
structure ScpSt where
  tok : Option String
  username : Option String
  cmd : String
deriving Repr, DecidableEq

/-- `ssh_opts` construction in the `ssh` subcommand (`mccli.py` lines 64-66):
the port flag is appended only when `p` is truthy (nonzero) and differs from
`SSH_PORT`. -/
def sshOpts (p : Int) : String :=
  if p ≠ 0 ∧ p ≠ SSH_PORT then "" ++ " -p " ++ toString p else ""

/-- `scp_opts` construction in the `scp` subcommand (`mccli.py` lines
97-103): `-r` when recursive, `-p` when preserving times, `-P port` when the
port is truthy (nonzero) and differs from `SSH_PORT`. -/
def scpOpts (recursive preserve_times : Bool) (port : Int) : String :=
  let s := ""
  let s := if recursive then s ++ " -r" else s
  let s := if preserve_times then s ++ " -p" else s
  let s := if port ≠ 0 ∧ port ≠ SSH_PORT then s ++ " -P " ++ toString port else s
  s

/-- One iteration of the per-source loop of the `scp` subcommand (`mccli.py`
lines 113-140): resolve a session if the source is remote, then dispatch on
the copy direction, raising on local→local and remote→remote, and otherwise
either extending the dry-run command line or invoking the transport. -/
def processSrc (o : Oracle) (a : ScpArgs) (dest_is_remote : Bool)
    (dest_host : Option String) (dest_path : String) (src : PathSpec)
    (st : ScpSt) : List Ev × Except PyError ScpSt :=
  let src_path := src.path.getD "."
  let src_is_remote := src.host.isSome
  let resolved : List Ev × Except PyError ScpSt :=
    match src.host with
    | none => ([], .ok st)
    | some h =>
      match resolveSession o a.mc_endpoint h a.verify a.token a.oa_account a.iss with
      | (evs, .error e) => (evs, .error e)
      | (evs, .ok (_, tok, username)) =>
        (evs, .ok { st with tok := some tok, username := some username })
  match resolved with
  | (evs, .error e) => (evs, .error e)
  | (evs, .ok st) =>
    if !src_is_remote && !dest_is_remote then
      (evs, .error (.exception "No remote host specified. Use regular cp instead."))
    else if src_is_remote && dest_is_remote then
      (evs, .error (.exception "scp between remote hosts not yet supported."))
    else if src_is_remote then
      if a.dry_run then
        (evs, .ok { st with cmd :=
          st.cmd ++ " " ++ st.username.getD "" ++ "@" ++ src.host.getD "" ++ ":" ++ src_path })
      else
        match o.scp_get (src.host.getD "") (st.username.getD "") (st.tok.getD "")
            a.port src_path dest_path a.recursive a.preserve_times with
        | .error e =>
          (evs ++ [.scpGet (src.host.getD "") (st.username.getD "") (st.tok.getD "")
            a.port src_path dest_path a.recursive a.preserve_times], .error e)
        | .ok _ =>
          (evs ++ [.scpGet (src.host.getD "") (st.username.getD "") (st.tok.getD "")
            a.port src_path dest_path a.recursive a.preserve_times], .ok st)
    else
      if a.dry_run then
        (evs, .ok { st with cmd := st.cmd ++ " " ++ src_path })
      else
        match o.scp_put (dest_host.getD "") (st.username.getD "") (st.tok.getD "")
            a.port src_path dest_path a.recursive a.preserve_times with
        | .error e =>
          (evs ++ [.scpPut (dest_host.getD "") (st.username.getD "") (st.tok.getD "")
            a.port src_path dest_path a.recursive a.preserve_times], .error e)
        | .ok _ =>
          (evs ++ [.scpPut (dest_host.getD "") (st.username.getD "") (st.tok.getD "")
            a.port src_path dest_path a.recursive a.preserve_times], .ok st)

/-- The `for src in source:` loop of the `scp` subcommand (`mccli.py` lines
113-140): sources are processed in order; the first exception propagates out
of the loop (the handlers sit outside it). -/
def scpLoop (o : Oracle) (a : ScpArgs) (dest_is_remote : Bool)
    (dest_host : Option String) (dest_path : String) :
    List PathSpec → ScpSt → List Ev × Except PyError ScpSt
  | [], st => ([], .ok st)
  | src :: rest, st =>
    match processSrc o a dest_is_remote dest_host dest_path src st with
    | (evs, .error e) => (evs, .error e)
    | (evs, .ok st2) =>
      match scpLoop o a dest_is_remote dest_host dest_path rest st2 with
      | (evs2, r) => (evs ++ evs2, r)

/-- The body of the `try` block of the `scp` subcommand (`mccli.py` lines
105-146): destructure the target, resolve a session for a remote target, run
the per-source loop, and in dry-run mode append the target and print the
accumulated command line. -/
def scpBody (o : Oracle) (a : ScpArgs) (source : List PathSpec)
    (target : PathSpec) (sshpass_cmd : String) : List Ev × Except PyError Unit :=
  let dest_path := target.path.getD "."
  let dest_host := target.host
  let dest_is_remote := dest_host.isSome
  let destRes : List Ev × Except PyError ScpSt :=
    match dest_host with
    | none => ([], .ok (ScpSt.mk none none sshpass_cmd))
    | some h =>
      match resolveSession o a.mc_endpoint h a.verify a.token a.oa_account a.iss with
      | (evs, .error e) => (evs, .error e)
      | (evs, .ok (_, tok, username)) =>
        (evs, .ok (ScpSt.mk (some tok) (some username) sshpass_cmd))
  match destRes with
  | (evs0, .error e) => (evs0, .error e)
  | (evs0, .ok st) =>
    match scpLoop o a dest_is_remote dest_host dest_path source st with
    | (evs1, .error e) => (evs0 ++ evs1, .error e)
    | (evs1, .ok st) =>
      if a.dry_run then
        let line :=
          if dest_is_remote then
            st.cmd ++ " " ++ st.username.getD "" ++ "@" ++ dest_host.getD "" ++ ":" ++ dest_path
          else
            st.cmd ++ " " ++ dest_path
        (evs0 ++ evs1 ++ [.printed line], .ok ())
      else
        (evs0 ++ evs1, .ok ())

/-- The `except` clauses of the `scp` subcommand (`mccli.py` lines 147-154):
every exception raised inside the `try` block is converted into a printed
message; nothing escapes. -/
def scpHandle : List Ev × Except PyError Unit → List Ev × Except PyError Unit
  | (evs, .ok _) => (evs, .ok ())
  | (evs, .error (.permissionError f)) =>
    (evs ++ [.printed (f ++ ": Permission denied")], .ok ())
  | (evs, .error (.isADirectoryError f)) =>
    (evs ++ [.printed (f ++ ": not a regular file")], .ok ())
  | (evs, .error (.fileNotFoundError f)) =>
    (evs ++ [.printed (f ++ ": No such file or directory")], .ok ())
  | (evs, .error (.exception m)) => (evs ++ [.printed m], .ok ())

/-- The whole `scp` subcommand (`mccli.py` lines 92-154).  Note that the
dry-run prefix — including the call to `str_init_token` — is built on lines
95-104, BEFORE the `try` block, so an exception raised there escapes the
subcommand (`Except.error` in the second component); when the subcommand is
not in dry-run mode `sshpass_cmd` stays unassigned in Python, modelled by
passing `""` which the body never reads outside dry-run. -/
def scpCmd (o : Oracle) (a : ScpArgs) (source : List PathSpec)
    (target : PathSpec) : List Ev × Except PyError Unit :=
  if a.dry_run then
    match o.str_init_token a.token a.oa_account a.iss with
    | .error e => ([], .error e)
    | .ok password =>
      scpHandle (scpBody o a source target
        ("sshpass -P \x27Access Token\x27 -p " ++ password ++ " scp " ++
          scpOpts a.recursive a.preserve_times a.port))
  else
    scpHandle (scpBody o a source target "")

/-- The body of the `try` block of the `ssh` subcommand (`mccli.py` lines
58-75): resolve endpoint, token and username, then either print the sshpass
command line (dry run) or invoke the interactive shell / remote command. -/
def sshBody (o : Oracle) (a : SshArgs) : List Ev × Except PyError Unit :=
  match resolveSession o a.mc_endpoint a.hostname a.verify a.token a.oa_account a.iss with
  | (evs, .error e) => (evs, .error e)
  | (evs, .ok (_, tok, username)) =>
    if a.dry_run then
      match o.str_init_token a.token a.oa_account a.iss with
      | .error e => (evs, .error e)
      | .ok password =>
        let sshpass_cmd := "sshpass -P \x27Access Token\x27 -p " ++ password ++
          " ssh " ++ sshOpts a.p ++ " " ++ username ++ "@" ++ a.hostname
        let sshpass_cmd :=
          match a.command with
          | some c =>
            if c ≠ "" then sshpass_cmd ++ " \x27" ++ c ++ "\x27" else sshpass_cmd
          | none => sshpass_cmd
        (evs ++ [.printed sshpass_cmd], .ok ())
    else
      match a.command with
      | none =>
        match o.ssh_interactive a.hostname username tok a.p with
        | .error e => (evs ++ [.sshInteractive a.hostname username tok a.p], .error e)
        | .ok _ => (evs ++ [.sshInteractive a.hostname username tok a.p], .ok ())
      | some c =>
        match o.ssh_exec a.hostname username tok a.p c with
        | .error e => (evs ++ [.sshExec a.hostname username tok a.p c], .error e)
        | .ok _ => (evs ++ [.sshExec a.hostname username tok a.p c], .ok ())

/-- The `except Exception` clause of the `ssh` subcommand (`mccli.py` lines
76-77): every exception raised in the `try` block is printed; nothing
escapes. -/
def sshHandle : List Ev × Except PyError Unit → List Ev × Except PyError Unit
  | (evs, .ok _) => (evs, .ok ())
  | (evs, .error e) => (evs ++ [.printed (pyStr e)], .ok ())

/-- The whole `ssh` subcommand (`mccli.py` lines 56-77): the entire body sits
inside the `try` block. -/
def sshCmd (o : Oracle) (a : SshArgs) : List Ev × Except PyError Unit :=
  sshHandle (sshBody o a)

/-- The `sftp` subcommand (`mccli.py` lines 157-159). -/
def sftpCmd : List Ev × Except PyError Unit :=
  ([.printed "Not implemented."], .ok ())

/-- Number of the mutually exclusive credential-source options that were
supplied. -/
def providedCount (token oa_account iss : Option String) : Nat :=
  (if token.isSome then 1 else 0) + (if oa_account.isSome then 1 else 0) +
    (if iss.isSome then 1 else 0)

/-- The usage error produced by the option group when more than one
credential source is supplied. -/
def mutexErrMsg : String :=
  "mutually exclusive options from the Access Token sources group"

/-- Modelled from the spec: the `MutuallyExclusiveOptionGroup` applied by
`common_options` (`mccli.py` lines 18-32) comes from the external
`click_option_group` library, which is not under `src/`.  Per spec §3 and §8,
at most one of `--token`, `--oa-account`, `--iss` may be supplied and the
violation is rejected at parse time, before the subcommand body runs. -/
def parseTokenSources (token oa_account iss : Option String) :
    Except String Unit :=
  if providedCount token oa_account iss > 1 then .error mutexErrMsg else .ok ()

/-- Result of a full CLI invocation: a parse-time usage error (no subcommand
body runs, hence no events), or the subcommand's trace and outcome. -/
inductive CliResult where
  | usageError (msg : String)
  | ran (trace : List Ev) (outcome : Except PyError Unit)
deriving Repr

/-- Full `ssh` CLI invocation: option parsing, then the subcommand. -/
def runSshCli (o : Oracle) (a : SshArgs) : CliResult :=
  match parseTokenSources a.token a.oa_account a.iss with
  | .error m => .usageError m
  | .ok _ =>
    match sshCmd o a with
    | (evs, r) => .ran evs r

/-- Full `scp` CLI invocation: option parsing, then the subcommand. -/
def runScpCli (o : Oracle) (a : ScpArgs) (source : List PathSpec)
    (target : PathSpec) : CliResult :=
  match parseTokenSources a.token a.oa_account a.iss with
  | .error m => .usageError m
  | .ok _ =>
    match scpCmd o a source target with
    | (evs, r) => .ran evs r

/-- An oracle whose resolutions always succeed with the given endpoint,
token, username and dry-run password, and whose transports succeed. -/
def mkOracle (ep tok usr pw : String) : Oracle where
  init_endpoint := fun _ _ _ => .ok ep
  init_token := fun _ _ _ _ _ => .ok tok
  init_user := fun _ _ _ => .ok usr
  str_init_token := fun _ _ _ => .ok pw
  ssh_interactive := fun _ _ _ _ => .ok ()
  ssh_exec := fun _ _ _ _ _ => .ok ()
  scp_put := fun _ _ _ _ _ _ _ _ => .ok ()
  scp_get := fun _ _ _ _ _ _ _ _ => .ok ()

/-- A concrete all-successful oracle. -/
def okOracle : Oracle := mkOracle "https://mc.example" "TOK" "user1" "TOK"

/-- An oracle on which `str_init_token` raises (no credential source is
available), while everything else succeeds. -/
def noCredOracle : Oracle :=
  { okOracle with str_init_token := fun _ _ _ => .error (.exception "No access token found") }

/-- `startsWithL n h` holds when the character list `h` begins with `n`. -/
def startsWithL : List Char → List Char → Bool
  | [], _ => true
  | _ :: _, [] => false
  | a :: as, b :: bs => a == b && startsWithL as bs

/-- Number of (possibly overlapping) occurrences of a nonempty pattern in a
character list. -/
def countOccsL (needle : List Char) : List Char → Nat
  | [] => 0
  | c :: rest =>
    (if startsWithL needle (c :: rest) then 1 else 0) + countOccsL needle rest

/-- Number of occurrences of the substring `needle` in `hay`. -/
def countOccs (needle hay : String) : Nat :=
  countOccsL needle.data hay.data

/-- Number of session-resolution events for host `h` in a trace. -/
def countInitEndpoint (h : String) (evs : List Ev) : Nat :=
  evs.countP (fun e => decide (e = Ev.initEndpoint h))

theorem mem_of_startsWithL :
    ∀ (n h : List Char), startsWithL n h = true → ∀ c ∈ n, c ∈ h := by
  intro n
  induction n with
  | nil => intro h _ c hc; exact absurd hc (List.not_mem_nil c)
  | cons a as ih =>
    intro h hs c hc
    cases h with
    | nil => simp [startsWithL] at hs
    | cons b bs =>
      have h1 : (a == b) = true ∧ startsWithL as bs = true := by
        simpa [startsWithL, Bool.and_eq_true] using hs
      rcases List.mem_cons.mp hc with rfl | hmem
      · exact List.mem_cons.mpr (Or.inl (eq_of_beq h1.1))
      · exact List.mem_cons.mpr (Or.inr (ih bs h1.2 c hmem))

theorem countOccsL_eq_zero (n : List Char) (c : Char) (hc : c ∈ n) :
    ∀ h : List Char, c ∉ h → countOccsL n h = 0 := by
  intro h
  induction h with
  | nil => intro _; rfl
  | cons b bs ih =>
    intro hnm
    have hb : startsWithL n (b :: bs) = false := by
      cases hx : startsWithL n (b :: bs)
      · rfl
      · exact absurd (mem_of_startsWithL n (b :: bs) hx c hc) hnm
    simp only [countOccsL, hb, Bool.false_eq_true, if_false, Nat.zero_add]
    exact ih (fun hm => hnm (List.mem_cons_of_mem b hm))

theorem countOccs_zero_of_char (needle hay : String) (c : Char)
    (hc : c ∈ needle.data) (hh : c ∉ hay.data) : countOccs needle hay = 0 :=
  countOccsL_eq_zero needle.data c hc hay.data hh

theorem digitChar_isDigit (m : Nat) (h : m < 10) :
    (Nat.digitChar m).isDigit = true := by
  have key : ∀ i : Fin 10, (Nat.digitChar i.val).isDigit = true := by decide
  exact key ⟨m, h⟩

theorem toDigitsCore_chars :
    ∀ (fuel n : Nat) (ds : List Char), ∀ c ∈ Nat.toDigitsCore 10 fuel n ds,
      c.isDigit = true ∨ c ∈ ds := by
  intro fuel
  induction fuel with
  | zero => intro n ds c hc; exact Or.inr hc
  | succ f ih =>
    intro n ds c hc
    simp only [Nat.toDigitsCore] at hc
    by_cases h0 : n / 10 = 0
    · rw [if_pos h0] at hc
      rcases List.mem_cons.mp hc with rfl | hm
      · exact Or.inl (digitChar_isDigit _ (Nat.mod_lt _ (by norm_num)))
      · exact Or.inr hm
    · rw [if_neg h0] at hc
      rcases ih (n / 10) (Nat.digitChar (n % 10) :: ds) c hc with hd | hm
      · exact Or.inl hd
      · rcases List.mem_cons.mp hm with rfl | hm2
        · exact Or.inl (digitChar_isDigit _ (Nat.mod_lt _ (by norm_num)))
        · exact Or.inr hm2

theorem natRepr_chars (n : Nat) : ∀ c ∈ (Nat.repr n).data, c.isDigit = true := by
  intro c hc
  have hc2 : c ∈ Nat.toDigitsCore 10 (n + 1) n [] := hc
  rcases toDigitsCore_chars (n + 1) n [] c hc2 with h | h
  · exact h
  · exact absurd h (List.not_mem_nil c)

theorem intToString_chars (i : Int) :
    ∀ c ∈ (toString i).data, c = '-' ∨ c.isDigit = true := by
  cases i with
  | ofNat m => intro c hc; exact Or.inr (natRepr_chars m c hc)
  | negSucc m =>
    intro c hc
    have hc2 : c ∈ ("-" ++ Nat.repr (m + 1)).data := hc
    rw [String.data_append] at hc2
    rcases List.mem_append.mp hc2 with h | h
    · left
      have hm : c ∈ ['-'] := h
      simpa using hm
    · exact Or.inr (natRepr_chars (m + 1) c h)

theorem char_notin_intToString (i : Int) (c : Char) (h1 : c ≠ '-')
    (h2 : c.isDigit = false) : c ∉ (toString i).data := by
  intro hm
  rcases intToString_chars i c hm with h | h
  · exact h1 h
  · rw [h] at h2; cases h2

theorem countOccs_base_port (needle base : String) (port : Int) (c : Char)
    (hc : c ∈ needle.data) (hb : c ∉ (base ++ " -P ").data) (h1 : c ≠ '-')
    (h2 : c.isDigit = false) :
    countOccs needle (base ++ " -P " ++ toString port) = 0 := by
  apply countOccs_zero_of_char _ _ c hc
  intro hm
  rw [String.data_append] at hm
  rcases List.mem_append.mp hm with h | h
  · exact hb h
  · exact char_notin_intToString port c h1 h2 h

theorem scpOpts_no_r (pt : Bool) (port : Int) :
    countOccs " -r" (scpOpts false pt port) = 0 := by
  by_cases hcond : (port ≠ 0 ∧ port ≠ SSH_PORT)
  · cases pt <;> simp only [scpOpts, Bool.false_eq_true, if_false, if_true,
      if_pos hcond] <;>
      exact countOccs_base_port _ _ port 'r' (by decide) (by decide) (by decide)
        (by decide)
  · cases pt <;> simp only [scpOpts, Bool.false_eq_true, if_false, if_true,
      if_neg hcond] <;> decide

theorem scpOpts_no_p (r : Bool) (port : Int) :
    countOccs " -p" (scpOpts r false port) = 0 := by
  by_cases hcond : (port ≠ 0 ∧ port ≠ SSH_PORT)
  · cases r <;> simp only [scpOpts, Bool.false_eq_true, if_false, if_true,
      if_pos hcond] <;>
      exact countOccs_base_port _ _ port 'p' (by decide) (by decide) (by decide)
        (by decide)
  · cases r <;> simp only [scpOpts, Bool.false_eq_true, if_false, if_true,
      if_neg hcond] <;> decide

theorem scpHandle_ok (r : List Ev × Except PyError Unit) :
    (scpHandle r).2 = Except.ok () := by
  obtain ⟨evs, r⟩ := r
  cases r with
  | ok u => rfl
  | error e => cases e <;> rfl

theorem sshHandle_ok (r : List Ev × Except PyError Unit) :
    (sshHandle r).2 = Except.ok () := by
  obtain ⟨evs, r⟩ := r
  cases r with
  | ok u => rfl
  | error e => rfl

/-- C1 (counterexample): a dry-run `scp -r -p -P 2222 a.txt host:/tmp`
invocation DOES perform network calls: the remote target's endpoint, token
and username are resolved inside the `try` block regardless of dry-run
(`mccli.py` lines 109-112), because the printed command line needs the
resolved username.  This refutes the claim's "performs no network call"
conjunct. -/
theorem dry_run_scp_resolves_target :
    ((scpCmd okOracle ⟨none, false, none, none, none, true, 2222, true, true⟩
      [⟨none, some "a.txt"⟩] ⟨some "host", some "/tmp"⟩).1.any Ev.isNetwork)
      = true := by decide

/-- C1 (amended): for every dry-run `scp` invocation with `-r`, `-p` and
`-P 2222` set, a local source and a remote target, the reconstructed scp
options are exactly `" -r -p -P 2222"` — each of the three flags occurs
exactly once, in that stable order — and the printed sshpass command line
embeds them; however the invocation resolves endpoint, token and username
for the remote target host (three network events occur). -/
theorem dry_run_scp_flags_once (ep tok usr pw : String) (mc : Option String)
    (v : Bool) (t oa i : Option String) (sp dh dp : String) :
    scpCmd (mkOracle ep tok usr pw) ⟨mc, v, t, oa, i, true, 2222, true, true⟩
      [⟨none, some sp⟩] ⟨some dh, some dp⟩ =
      ([Ev.initEndpoint dh, Ev.initToken ep, Ev.initUser ep,
        Ev.printed ("sshpass -P \x27Access Token\x27 -p " ++ pw ++ " scp " ++
          scpOpts true true 2222 ++ " " ++ sp ++ " " ++ usr ++ "@" ++ dh ++
          ":" ++ dp)], Except.ok ()) ∧
    scpOpts true true 2222 = " -r -p -P 2222" ∧
    countOccs " -r" (scpOpts true true 2222) = 1 ∧
    countOccs " -p" (scpOpts true true 2222) = 1 ∧
    countOccs " -P 2222" (scpOpts true true 2222) = 1 ∧
    ((scpCmd (mkOracle ep tok usr pw) ⟨mc, v, t, oa, i, true, 2222, true, true⟩
      [⟨none, some sp⟩] ⟨some dh, some dp⟩).1.countP Ev.isNetwork) = 3 :=
  ⟨rfl, by decide, by decide, by decide, by decide, rfl⟩

/-- C2 (counterexample): in a dry-run `scp` invocation, an error raised by
`str_init_token` while the command-line prefix is built (`mccli.py` line 96)
occurs BEFORE the `try` block (line 105) and escapes the subcommand as an
uncaught exception, refuting "no error escapes as a process failure". -/
theorem scp_dry_prefix_error_escapes :
    (scpCmd noCredOracle ⟨none, false, none, none, none, true, 22, false, false⟩
      [⟨none, some "a"⟩] ⟨some "h", some "/tmp"⟩).2 =
      Except.error (PyError.exception "No access token found") := rfl

/-- C2 (amended): every error raised inside the `try` block of `ssh` or
`scp` is caught at the top of the subcommand and printed as a plain message,
after which the subcommand returns normally.  For `ssh` this covers the whole
body, dry-run command building included; for `scp` it covers everything
except the dry-run prefix built before the `try` block, so no error escapes
provided dry-run is off or `str_init_token` succeeds. -/
theorem errors_caught_at_top :
    (∀ o a, (sshCmd o a).2 = Except.ok ()) ∧
    (∀ evs e, sshHandle (evs, Except.error e) =
      (evs ++ [Ev.printed (pyStr e)], Except.ok ())) ∧
    (∀ o a source target,
      (a.dry_run = false ∨
        ∃ pw, o.str_init_token a.token a.oa_account a.iss = Except.ok pw) →
      (scpCmd o a source target).2 = Except.ok ()) := by
  refine ⟨fun o a => sshHandle_ok _, fun evs e => rfl,
    fun o a source target h => ?_⟩
  unfold scpCmd
  rcases h with h | ⟨pw, hpw⟩
  · rw [if_neg (by simp [h])]
    exact scpHandle_ok _
  · cases hd : a.dry_run with
    | false =>
      rw [if_neg (by simp [hd])]
      exact scpHandle_ok _
    | true =>
      rw [if_pos rfl, hpw]
      exact scpHandle_ok _

/-- C2 (witness): the catch-all behaviour at a concrete input. -/
theorem errors_caught_at_top_witness :
    (scpCmd okOracle ⟨none, false, none, none, none, true, 22, false, false⟩
      [⟨none, some "a"⟩] ⟨some "h", some "/tmp"⟩).2 = Except.ok () :=
  errors_caught_at_top.2.2 okOracle
    ⟨none, false, none, none, none, true, 22, false, false⟩
    [⟨none, some "a"⟩] ⟨some "h", some "/tmp"⟩ (Or.inr ⟨"TOK", rfl⟩)

/-- C3 (counterexample): two sources naming the same remote host `h` (with a
local target) trigger TWO separate endpoint/token/username resolutions — the
per-source loop re-resolves unconditionally (`mccli.py` lines 117-120) — so
a session is NOT built at most once per distinct remote host. -/
theorem same_host_resolved_twice :
    ¬ (countInitEndpoint "h"
      (scpCmd okOracle ⟨none, false, none, none, none, false, 22, false, false⟩
        [⟨some "h", some "a"⟩, ⟨some "h", some "b"⟩] ⟨none, some "."⟩).1 ≤ 1) := by
  decide

/-- C3 (amended): a session (endpoint, access token, username) is resolved
once per remote OCCURRENCE — once for a remote target and once for each
remote source — not once per distinct host: with two sources on the same
host `h` and a local target, the full resolution triple runs twice, as the
explicit trace shows. -/
theorem session_resolved_per_occurrence (ep tok usr pw : String)
    (mc : Option String) (v : Bool) (t oa i : Option String) (port : Int)
    (r pt : Bool) (h p1 p2 dp : String) :
    scpCmd (mkOracle ep tok usr pw) ⟨mc, v, t, oa, i, false, port, r, pt⟩
      [⟨some h, some p1⟩, ⟨some h, some p2⟩] ⟨none, some dp⟩ =
      ([Ev.initEndpoint h, Ev.initToken ep, Ev.initUser ep,
        Ev.scpGet h usr tok port p1 dp r pt,
        Ev.initEndpoint h, Ev.initToken ep, Ev.initUser ep,
        Ev.scpGet h usr tok port p2 dp r pt], Except.ok ()) := rfl

/-- C4: once the processing of one source raises an error, no subsequent
source is processed: the loop's trace and outcome for `src :: rest` equal
those of processing `src` alone, whatever `rest` is; the only exception
handler (`scpHandle`) is applied outside the whole loop in `scpCmd`, so one
failure aborts the whole command. -/
theorem failing_source_aborts_loop (o : Oracle) (a : ScpArgs) (dir : Bool)
    (dh : Option String) (dp : String) (src : PathSpec) (rest : List PathSpec)
    (st : ScpSt) (evs : List Ev) (e : PyError)
    (h : processSrc o a dir dh dp src st = (evs, Except.error e)) :
    scpLoop o a dir dh dp (src :: rest) st = (evs, Except.error e) := by
  simp only [scpLoop, h]

/-- C4 (witness): a concrete failing first source (local→local) aborts the
loop before the second source. -/
theorem failing_source_aborts_loop_witness :
    scpLoop okOracle ⟨none, false, none, none, none, false, 22, false, false⟩
      false none "." [⟨none, some "a"⟩, ⟨none, some "b"⟩] ⟨none, none, ""⟩ =
      ([], Except.error
        (PyError.exception "No remote host specified. Use regular cp instead.")) :=
  failing_source_aborts_loop okOracle
    ⟨none, false, none, none, none, false, 22, false, false⟩ false none "."
    ⟨none, some "a"⟩ [⟨none, some "b"⟩] ⟨none, none, ""⟩ [] _ rfl

/-- C5: a purely local copy (no host on any source nor on the target) fails
with the unsupported-copy-direction error — the raised message "No remote
host specified. Use regular cp instead." is printed by the top-level handler
— and the transport (`scp_put` / `scp_get`) is never invoked: the whole
trace is that single printed line.  (The dry-run prefix construction, which
happens before the `try` block, is assumed to succeed when dry-run is on.) -/
theorem local_local_copy_rejected (o : Oracle) (a : ScpArgs)
    (source : List PathSpec) (target : PathSpec) (hne : source ≠ [])
    (hsrc : ∀ s ∈ source, s.host = none) (htgt : target.host = none)
    (hdry : a.dry_run = false ∨
      ∃ pw, o.str_init_token a.token a.oa_account a.iss = Except.ok pw) :
    scpCmd o a source target =
      ([Ev.printed "No remote host specified. Use regular cp instead."],
        Except.ok ()) ∧
    ((scpCmd o a source target).1.any Ev.isTransport) = false := by
  obtain ⟨s, rest, rfl⟩ : ∃ s rest, source = s :: rest := by
    cases source with
    | nil => exact absurd rfl hne
    | cons s rest => exact ⟨s, rest, rfl⟩
  have hs : s.host = none := hsrc s (List.mem_cons_self s rest)
  have key : ∀ pre, scpHandle (scpBody o a (s :: rest) target pre) =
      ([Ev.printed "No remote host specified. Use regular cp instead."],
        Except.ok ()) := by
    intro pre
    simp [scpBody, scpLoop, processSrc, scpHandle, htgt, hs]
  have hcmd : scpCmd o a (s :: rest) target =
      ([Ev.printed "No remote host specified. Use regular cp instead."],
        Except.ok ()) := by
    unfold scpCmd
    rcases hdry with h | ⟨pw, hpw⟩
    · rw [if_neg (by simp [h])]
      exact key ""
    · cases hd : a.dry_run with
      | false =>
        rw [if_neg (by simp [hd])]
        exact key ""
      | true =>
        rw [if_pos rfl, hpw]
        exact key _
  exact ⟨hcmd, by rw [hcmd]; rfl⟩

/-- C5 (witness): `cp a.txt b.txt` with no host anywhere, at a concrete
input. -/
theorem local_local_copy_rejected_witness :
    scpCmd okOracle ⟨none, false, none, none, none, false, 22, false, false⟩
      [⟨none, some "a.txt"⟩] ⟨none, some "b.txt"⟩ =
      ([Ev.printed "No remote host specified. Use regular cp instead."],
        Except.ok ()) :=
  (local_local_copy_rejected okOracle
    ⟨none, false, none, none, none, false, 22, false, false⟩
    [⟨none, some "a.txt"⟩] ⟨none, some "b.txt"⟩ (by decide) (by decide) rfl
    (Or.inl rfl)).1

/-- C6 (counterexample): with sources `[a, h:b]` — a local source listed
before a remote one — and remote target `h2:/tmp`, the command does raise
"scp between remote hosts not yet supported.", but only AFTER invoking the
transport (`scp_put`) for the earlier local source: a transfer IS attempted,
refuting "no transfer (scp_put / scp_get) is attempted". -/
theorem mixed_sources_transfer_attempted :
    ((scpCmd okOracle ⟨none, false, none, none, none, false, 22, false, false⟩
      [⟨none, some "a"⟩, ⟨some "h", some "b"⟩] ⟨some "h2", some "/tmp"⟩).1.any
        Ev.isTransport) = true := by decide

/-- C6 (amended): when the target is remote and the FIRST source is remote,
the command fails with "scp between remote hosts not yet supported." and no
transfer at all is attempted: the error aborts the loop at its first
iteration, whatever sources follow.  (If a local source precedes the first
remote one, its transfer is attempted before the error — see the
counterexample.)  The session resolutions for target and first source are
assumed to succeed; the handler prints the error and returns normally. -/
theorem remote_remote_rejected_no_transfer (o : Oracle) (a : ScpArgs)
    (sh dh : String) (sp dp : Option String) (rest : List PathSpec)
    (ep1 t1 u1 ep2 t2 u2 : String)
    (hd1 : o.init_endpoint a.mc_endpoint dh a.verify = Except.ok ep1)
    (hd2 : o.init_token a.token a.oa_account a.iss ep1 a.verify = Except.ok t1)
    (hd3 : o.init_user ep1 t1 a.verify = Except.ok u1)
    (hs1 : o.init_endpoint a.mc_endpoint sh a.verify = Except.ok ep2)
    (hs2 : o.init_token a.token a.oa_account a.iss ep2 a.verify = Except.ok t2)
    (hs3 : o.init_user ep2 t2 a.verify = Except.ok u2)
    (hdry : a.dry_run = false ∨
      ∃ pw, o.str_init_token a.token a.oa_account a.iss = Except.ok pw) :
    scpCmd o a (⟨some sh, sp⟩ :: rest) ⟨some dh, dp⟩ =
      ([Ev.initEndpoint dh, Ev.initToken ep1, Ev.initUser ep1,
        Ev.initEndpoint sh, Ev.initToken ep2, Ev.initUser ep2,
        Ev.printed "scp between remote hosts not yet supported."],
        Except.ok ()) ∧
    ((scpCmd o a (⟨some sh, sp⟩ :: rest) ⟨some dh, dp⟩).1.any Ev.isTransport)
      = false := by
  have key : ∀ pre, scpHandle (scpBody o a (⟨some sh, sp⟩ :: rest) ⟨some dh, dp⟩ pre) =
      ([Ev.initEndpoint dh, Ev.initToken ep1, Ev.initUser ep1,
        Ev.initEndpoint sh, Ev.initToken ep2, Ev.initUser ep2,
        Ev.printed "scp between remote hosts not yet supported."],
        Except.ok ()) := by
    intro pre
    simp [scpBody, scpLoop, processSrc, resolveSession, scpHandle,
      hd1, hd2, hd3, hs1, hs2, hs3]
  have hcmd : scpCmd o a (⟨some sh, sp⟩ :: rest) ⟨some dh, dp⟩ =
      ([Ev.initEndpoint dh, Ev.initToken ep1, Ev.initUser ep1,
        Ev.initEndpoint sh, Ev.initToken ep2, Ev.initUser ep2,
        Ev.printed "scp between remote hosts not yet supported."],
        Except.ok ()) := by
    unfold scpCmd
    rcases hdry with h | ⟨pw, hpw⟩
    · rw [if_neg (by simp [h])]
      exact key ""
    · cases hd : a.dry_run with
      | false =>
        rw [if_neg (by simp [hd])]
        exact key ""
      | true =>
        rw [if_pos rfl, hpw]
        exact key _
  exact ⟨hcmd, by rw [hcmd]; rfl⟩

/-- C6 (witness): a single remote source and a remote target, at a concrete
input. -/
theorem remote_remote_rejected_no_transfer_witness :
    scpCmd okOracle ⟨none, false, none, none, none, false, 22, false, false⟩
      [⟨some "h", some "a"⟩] ⟨some "h2", some "/tmp"⟩ =
      ([Ev.initEndpoint "h2", Ev.initToken "https://mc.example",
        Ev.initUser "https://mc.example", Ev.initEndpoint "h",
        Ev.initToken "https://mc.example", Ev.initUser "https://mc.example",
        Ev.printed "scp between remote hosts not yet supported."],
        Except.ok ()) :=
  (remote_remote_rejected_no_transfer okOracle
    ⟨none, false, none, none, none, false, 22, false, false⟩ "h" "h2"
    (some "a") (some "/tmp") [] _ _ _ _ _ _ rfl rfl rfl rfl rfl rfl
    (Or.inl rfl)).1

/-- C7: when all three credential-source options (`--token`, `--oa-account`,
`--iss`) are supplied simultaneously, option parsing fails with a usage
error before the subcommand body runs, so no endpoint, token or username
resolution — indeed no event at all — occurs, for both `ssh` and `scp`. -/
theorem mutex_options_fail_before_network (o : Oracle) (mc : Option String)
    (v : Bool) (tv av iv : String) (dry : Bool) (p : Int) (hn : String)
    (cmdArg : Option String) (port : Int) (r pt : Bool)
    (src : List PathSpec) (tgt : PathSpec) :
    runSshCli o ⟨mc, v, some tv, some av, some iv, dry, p, hn, cmdArg⟩ =
      CliResult.usageError mutexErrMsg ∧
    runScpCli o ⟨mc, v, some tv, some av, some iv, dry, port, r, pt⟩ src tgt =
      CliResult.usageError mutexErrMsg :=
  ⟨rfl, rfl⟩

/-- C8: dry-run flag reconstruction emits a flag only when it differs from
its default: with the default port (`SSH_PORT` = 22) the reconstructed
options contain no port flag (for `ssh` they are empty, for `scp` no ` -P`
occurs); and whenever ` -r`, ` -p` or ` -P` occurs in the reconstructed scp
options (resp. ` -p` in the ssh options), the corresponding option was set,
resp. the port differs from both the default and 0. -/
theorem flags_only_when_nondefault :
    sshOpts SSH_PORT = "" ∧
    (∀ r pt, countOccs " -P" (scpOpts r pt SSH_PORT) = 0) ∧
    (∀ r pt port, countOccs " -r" (scpOpts r pt port) ≠ 0 → r = true) ∧
    (∀ r pt port, countOccs " -p" (scpOpts r pt port) ≠ 0 → pt = true) ∧
    (∀ r pt port, countOccs " -P" (scpOpts r pt port) ≠ 0 →
      port ≠ SSH_PORT ∧ port ≠ 0) ∧
    (∀ p, countOccs " -p" (sshOpts p) ≠ 0 → p ≠ SSH_PORT ∧ p ≠ 0) := by
  refine ⟨rfl, ?_, ?_, ?_, ?_, ?_⟩
  · intro r pt
    cases r <;> cases pt <;> decide
  · intro r pt port h
    cases r with
    | true => rfl
    | false => exact absurd (scpOpts_no_r pt port) h
  · intro r pt port h
    cases pt with
    | true => rfl
    | false => exact absurd (scpOpts_no_p r port) h
  · intro r pt port h
    by_cases hcond : (port ≠ 0 ∧ port ≠ SSH_PORT)
    · exact ⟨hcond.2, hcond.1⟩
    · exfalso
      apply h
      cases r <;> cases pt <;>
        simp only [scpOpts, Bool.false_eq_true, if_false, if_true,
          if_neg hcond] <;> decide
  · intro p h
    by_cases hcond : (p ≠ 0 ∧ p ≠ SSH_PORT)
    · exact ⟨hcond.2, hcond.1⟩
    · exfalso
      apply h
      simp only [sshOpts, if_neg hcond]
      decide

/-- C8 (witness): a nondefault port inferred from the presence of the port
flag in the reconstructed options, at a concrete input. -/
theorem flags_only_when_nondefault_witness :
    (2222 : Int) ≠ SSH_PORT ∧ (2222 : Int) ≠ 0 :=
  flags_only_when_nondefault.2.2.2.2.1 false false 2222 (by decide)

/-- C9: the `sftp` subcommand prints exactly the literal string
"Not implemented." and performs no other action: its whole trace is that
single printed line — in particular no network call and no transport
invocation — and it returns normally. -/
theorem sftp_only_prints_not_implemented :
    sftpCmd = ([Ev.printed "Not implemented."], Except.ok ()) ∧
    sftpCmd.1.all (fun e => !e.isNetwork && !e.isTransport) = true :=
  ⟨rfl, rfl⟩

/-- C10: with the port option set to 0 the reconstructed options of a
dry-run `ssh` or `scp` omit the port flag entirely even though 0 differs
from the default 22 (the guard `if p and p != SSH_PORT` tests truthiness in
addition to inequality): the options coincide with those for the default
port, contain no port flag, and the printed ssh command line embeds the
empty option string. -/
theorem port_zero_omits_port_flag :
    sshOpts 0 = "" ∧ (0 : Int) ≠ SSH_PORT ∧
    (∀ r pt, scpOpts r pt 0 = scpOpts r pt SSH_PORT) ∧
    (∀ r pt, countOccs " -P" (scpOpts r pt 0) = 0) ∧
    (∀ ep tok usr pw mc v t oa i hn,
      sshCmd (mkOracle ep tok usr pw) ⟨mc, v, t, oa, i, true, 0, hn, none⟩ =
        ([Ev.initEndpoint hn, Ev.initToken ep, Ev.initUser ep,
          Ev.printed ("sshpass -P \x27Access Token\x27 -p " ++ pw ++ " ssh " ++
            sshOpts 0 ++ " " ++ usr ++ "@" ++ hn)], Except.ok ())) :=
  ⟨rfl, by decide, fun r pt => by cases r <;> cases pt <;> rfl,
    fun r pt => by cases r <;> cases pt <;> decide,
    fun ep tok usr pw mc v t oa i hn => rfl⟩

end McSsh
